import Mathlib

/-!
Verification development for the solar-PV detection pipeline.

The core under study (src/src/quality_checker.py, src/src/geometry.py) is
shallowly embedded below.  Real-valued image metrics and areas are modelled
as rationals; the decimal constants of the source (0.3, 0.092903, 10.7639)
become the exact rationals 3/10, 92903/1000000 and 107639/10000.

Geometry performed by the external shapely library (circle buffers,
polygon intersection tests, unary_union, area) is abstracted by a
GeoModel: a bundle of the geometric observations the pipeline code makes
about its panel set at a fixed center and scale.  The pipeline logic
itself (zone priority, merging, unit conversion, record assembly) is
embedded faithfully from the source.
-/

/-- Thresholds carried by ImageQualityChecker.__init__
(quality_checker.py lines 9-16); the source defaults are
cloud_threshold=0.3 and blur_threshold=100. -/
structure ImageQualityChecker where
  cloud_threshold : ℚ := 3/10
  blur_threshold : ℚ := 100
deriving DecidableEq

/-- ImageQualityChecker.is_verifiable (quality_checker.py lines 66-106),
as a function of the four measured metrics (the cv2 metric extraction is
external); returns the (verifiable, reason_code) pair of the source. -/
def ImageQualityChecker.is_verifiable (c : ImageQualityChecker)
    (cloud_ratio blur_score brightness contrast : ℚ) : Bool × String :=
  if cloud_ratio > c.cloud_threshold then (false, "heavy_cloud")
  else if blur_score < c.blur_threshold then (false, "low_resolution")
  else if brightness < 30 then (false, "heavy_shadow")
  else if brightness > 240 then (false, "overexposed")
  else if contrast < 20 then (false, "low_contrast")
  else (true, "clear_image")

/-- The checker built with the source defaults, as in
ImageQualityChecker(cloud_threshold=0.3, blur_threshold=100) of main.py. -/
def default_checker : ImageQualityChecker := {}

/-- BUFFER_1_SQFT constant of geometry.py line 5. -/
def BUFFER_1_SQFT : ℚ := 1200

/-- BUFFER_2_SQFT constant of geometry.py line 6. -/
def BUFFER_2_SQFT : ℚ := 2400

/-- sqft_to_sqmeters (geometry.py lines 10-12): square feet to square
meters via the constant 0.092903. -/
def sqft_to_sqmeters (sqft : ℚ) : ℚ := sqft * (92903/1000000)

/-- The square-meters to square-feet conversion step of analyze_buffers
(geometry.py line 108): multiplication by 10.7639. -/
def sqm_to_sqft (sqm : ℚ) : ℚ := sqm * (107639/10000)

/-- area_to_radius_meters (geometry.py lines 14-16): radius of a circle
of the given area. -/
noncomputable def area_to_radius_meters (area_sqm : ℝ) : ℝ :=
  Real.sqrt (area_sqm / Real.pi)

/-- The dictionary returned by get_buffer_radii (geometry.py lines 18-30). -/
structure BufferRadii where
  buffer_1_px : ℝ
  buffer_2_px : ℝ
  buffer_1_m : ℝ
  buffer_2_m : ℝ

/-- get_buffer_radii (geometry.py lines 18-30): pixel and meter radii of
the two buffers at a given meters-per-pixel scale. -/
noncomputable def get_buffer_radii (scale_mpp : ℝ) : BufferRadii :=
  let r1_m := area_to_radius_meters ((sqft_to_sqmeters BUFFER_1_SQFT : ℚ) : ℝ)
  let r2_m := area_to_radius_meters ((sqft_to_sqmeters BUFFER_2_SQFT : ℚ) : ℝ)
  { buffer_1_px := r1_m / scale_mpp
    buffer_2_px := r2_m / scale_mpp
    buffer_1_m := r1_m
    buffer_2_m := r2_m }

/-- determine_qc_status (geometry.py lines 32-65).  The total_area_sqft
and zone_id arguments are accepted and ignored exactly as in the source. -/
def determine_qc_status (detected : Bool) (total_area_sqft : ℚ) (zone_id : ℕ)
    (cloud_coverage blur_score brightness contrast : ℚ) : String :=
  if cloud_coverage > 3/10 then "NOT_VERIFIABLE (cloud_coverage)"
  else if blur_score < 50 then "NOT_VERIFIABLE (blur)"
  else if brightness < 20 ∨ brightness > 250 then "NOT_VERIFIABLE (brightness)"
  else if contrast < 30 then "NOT_VERIFIABLE (contrast)"
  else if detected then "VERIFIABLE (present)"
  else "VERIFIABLE (not present)"

/-- Abstraction of the shapely geometry observations analyze_buffers makes
about panels of type P at one fixed center point and scale: whether a
panel intersects the buffer-1 and buffer-2 circles (geometry.py lines
89-90), the pixel area of the unary_union of a list of panels
(shapely.ops.unary_union followed by .area, lines 74 and 106), the pixel
area of a single panel (line 132), and its truncated exterior ring
(line 136).  The pipeline code treats all of these as black boxes, so the
theorems below quantify over every such model; the center point and the
scale enter the pipeline only through these observations. -/
structure GeoModel (P : Type) where
  intersectsB1 : P → Bool
  intersectsB2 : P → Bool
  unionArea : List P → ℚ
  panelArea : P → ℚ
  mask : P → List (ℤ × ℤ)

/-- merge_panels (geometry.py lines 67-74): None on an empty input,
otherwise the unary_union of the panels.  The union geometry is
represented symbolically by the list of panels it merges; its pixel area
is the GeoModel's unionArea of that list. -/
def merge_panels {P : Type} (panels : List P) : Option (List P) :=
  if panels.isEmpty then none else some panels

/-- The dictionary returned by analyze_buffers (geometry.py lines
144-163).  The geometry sub-dictionary is represented by its
merged_panels entry; center and buffer circles are inputs of the
invocation, not computed data. -/
structure AnalyzeResult (P : Type) where
  status : String
  zone_id : ℕ
  qc_status : String
  total_area_sqft : ℚ
  total_area_sqm : ℚ
  panel_count : ℕ
  avg_panel_area_sqm : ℚ
  max_panel_area_sqm : ℚ
  min_panel_area_sqm : ℚ
  valid_panel_indices : List ℕ
  valid_panel_areas_sqm : List ℚ
  polygon_masks : List (List (ℤ × ℤ))
  merged_panels : Option (List P)

/-- Python max over a list, with the zero default the source applies to
an empty list (geometry.py line 141). -/
def pyMax : List ℚ → ℚ
  | [] => 0
  | x :: xs => xs.foldl max x

/-- Python min over a list, with the zero default the source applies to
an empty list (geometry.py line 142). -/
def pyMin : List ℚ → ℚ
  | [] => 0
  | x :: xs => xs.foldl min x

/-- analyze_buffers (geometry.py lines 76-163) over an abstract geometry
model.  Panels are already their polygons (the dict-or-polygon branch of
line 87 is identity on the polygon payload).  The source's loop over
valid_panels building the three parallel lists (lines 126-137), guarded
by value-equality membership in panel_polygons, is expressed as a filter
followed by three maps. -/
def analyze_buffers {P : Type} [DecidableEq P] (g : GeoModel P)
    (panels : List P) (scale_mpp : ℚ)
    (cloud_coverage blur_score brightness contrast : ℚ) : AnalyzeResult P :=
  let panel_polygons := panels
  let detected_b1 := panel_polygons.filter g.intersectsB1
  let detected_b2 := panel_polygons.filter g.intersectsB2
  let zp : List P × ℕ × String :=
    if ¬ detected_b1.isEmpty then
      (detected_b1, 1, "Found in Buffer 1 (High Confidence)")
    else if ¬ detected_b2.isEmpty then
      (detected_b2, 2, "Found in Buffer 2 (Expanded Search)")
    else ([], 0, "No Solar Detected")
  let valid_panels := zp.1
  let zone_detected := zp.2.1
  let status := zp.2.2
  let merged_panels := merge_panels valid_panels
  let total_sqft : ℚ :=
    match merged_panels with
    | some ps => (g.unionArea ps * scale_mpp ^ 2) * (107639/10000)
    | none => 0
  let qc_status := determine_qc_status (!valid_panels.isEmpty) total_sqft
    zone_detected cloud_coverage blur_score brightness contrast
  let kept := valid_panels.filter (fun p => panel_polygons.contains p)
  let valid_panel_indices := kept.map (fun p => panel_polygons.indexOf p)
  let valid_panel_areas_sqm := kept.map (fun p => g.panelArea p * scale_mpp ^ 2)
  let polygon_masks := kept.map g.mask
  let panel_count := valid_panels.length
  { status := status
    zone_id := zone_detected
    qc_status := qc_status
    total_area_sqft := total_sqft
    total_area_sqm := total_sqft * (92903/1000000)
    panel_count := panel_count
    avg_panel_area_sqm :=
      if 0 < panel_count then valid_panel_areas_sqm.sum / (panel_count : ℚ) else 0
    max_panel_area_sqm := pyMax valid_panel_areas_sqm
    min_panel_area_sqm := pyMin valid_panel_areas_sqm
    valid_panel_indices := valid_panel_indices
    valid_panel_areas_sqm := valid_panel_areas_sqm
    polygon_masks := polygon_masks
    merged_panels := merged_panels }

/-- An axis-aligned rectangle in pixel coordinates, used as a concrete
panel type when evaluating the pipeline on explicit inputs. -/
structure Rect where
  x1 : ℚ
  y1 : ℚ
  x2 : ℚ
  y2 : ℚ
deriving DecidableEq

/-- Pixel area of an axis-aligned rectangle. -/
def rectArea (r : Rect) : ℚ := (r.x2 - r.x1) * (r.y2 - r.y1)

/-- Pixel area of the intersection of two axis-aligned rectangles. -/
def rectInterArea (a b : Rect) : ℚ :=
  max 0 (min a.x2 b.x2 - max a.x1 b.x1) * max 0 (min a.y2 b.y2 - max a.y1 b.y1)

/-- Exact union area for at most two axis-aligned rectangles, by
inclusion-exclusion; the catch-all case (never reached by the concrete
inputs below, which merge at most two panels) sums the areas. -/
def rectUnionArea : List Rect → ℚ
  | [] => 0
  | [r] => rectArea r
  | [a, b] => rectArea a + rectArea b - rectInterArea a b
  | l => (l.map rectArea).sum

/-- A concrete geometry model over rectangles for a center whose buffer
circles contain the rectangles used in the witnesses: both intersection
tests hold, union area is exact inclusion-exclusion, and the mask is the
truncated corner ring. -/
def rectModel : GeoModel Rect :=
  { intersectsB1 := fun _ => true
    intersectsB2 := fun _ => true
    unionArea := rectUnionArea
    panelArea := rectArea
    mask := fun r => [(⌊r.x1⌋, ⌊r.y1⌋), (⌊r.x2⌋, ⌊r.y1⌋),
                      (⌊r.x2⌋, ⌊r.y2⌋), (⌊r.x1⌋, ⌊r.y2⌋)] }

/-- A geometry model over rectangles whose buffers contain no panel at
all: both intersection tests are false on every rectangle. -/
def emptyZoneModel : GeoModel Rect :=
  { intersectsB1 := fun _ => false
    intersectsB2 := fun _ => false
    unionArea := rectUnionArea
    panelArea := rectArea
    mask := fun _ => [] }

/-- Concrete 2x1-pixel rectangle used in witnesses. -/
def rectA : Rect := ⟨0, 0, 2, 1⟩

/-- Concrete 2x1-pixel rectangle overlapping rectA on a 1x1 square. -/
def rectB : Rect := ⟨1, 0, 3, 1⟩

/-- C1: for every metrics input, the quality gate runs its checks in fixed
priority order and the first failing check wins: cloud over threshold
gives heavy_cloud regardless of the other metrics; only once cloud passes
is blur checked (low_resolution), then brightness (heavy_shadow or
overexposed), then contrast (low_contrast); if nothing fires the result
is verifiable with reason clear_image. -/
theorem quality_gate_priority (c : ImageQualityChecker) (cc bs br ct : ℚ) :
    (c.cloud_threshold < cc →
      c.is_verifiable cc bs br ct = (false, "heavy_cloud"))
  ∧ (cc ≤ c.cloud_threshold → bs < c.blur_threshold →
      c.is_verifiable cc bs br ct = (false, "low_resolution"))
  ∧ (cc ≤ c.cloud_threshold → c.blur_threshold ≤ bs → br < 30 →
      c.is_verifiable cc bs br ct = (false, "heavy_shadow"))
  ∧ (cc ≤ c.cloud_threshold → c.blur_threshold ≤ bs → 30 ≤ br → 240 < br →
      c.is_verifiable cc bs br ct = (false, "overexposed"))
  ∧ (cc ≤ c.cloud_threshold → c.blur_threshold ≤ bs → 30 ≤ br → br ≤ 240 →
      ct < 20 → c.is_verifiable cc bs br ct = (false, "low_contrast"))
  ∧ (cc ≤ c.cloud_threshold → c.blur_threshold ≤ bs → 30 ≤ br → br ≤ 240 →
      20 ≤ ct → c.is_verifiable cc bs br ct = (true, "clear_image")) := by
  unfold ImageQualityChecker.is_verifiable
  refine ⟨fun h1 => ?_, fun h1 h2 => ?_, fun h1 h2 h3 => ?_,
    fun h1 h2 h3 h4 => ?_, fun h1 h2 h3 h4 h5 => ?_,
    fun h1 h2 h3 h4 h5 => ?_⟩
  · rw [if_pos h1]
  · rw [if_neg (not_lt.mpr h1), if_pos h2]
  · rw [if_neg (not_lt.mpr h1), if_neg (not_lt.mpr h2), if_pos h3]
  · rw [if_neg (not_lt.mpr h1), if_neg (not_lt.mpr h2), if_neg (not_lt.mpr h3),
      if_pos h4]
  · rw [if_neg (not_lt.mpr h1), if_neg (not_lt.mpr h2), if_neg (not_lt.mpr h3),
      if_neg (not_lt.mpr h4), if_pos h5]
  · rw [if_neg (not_lt.mpr h1), if_neg (not_lt.mpr h2), if_neg (not_lt.mpr h3),
      if_neg (not_lt.mpr h4), if_neg (not_lt.mpr h5)]

/-- Witness for C1 at the spec scenario cloudCoverage=0.5, blurScore=1
with the deployed default thresholds: the reason is heavy_cloud, never
low_resolution. -/
theorem quality_gate_priority_witness :
    default_checker.is_verifiable (1/2) 1 100 50 = (false, "heavy_cloud") :=
  (quality_gate_priority default_checker (1/2) 1 100 50).1
    (by norm_num [default_checker])

/-- C8: a blur score exactly equal to the configured blur threshold
passes the blur check (the failure condition is a strict less-than): the
reported reason is never low_resolution, and the gate behaves exactly as
it does on a blur score strictly above the threshold. -/
theorem blur_threshold_boundary (c : ImageQualityChecker) (cc br ct : ℚ) :
    (c.is_verifiable cc c.blur_threshold br ct).2 ≠ "low_resolution"
  ∧ c.is_verifiable cc c.blur_threshold br ct
      = c.is_verifiable cc (c.blur_threshold + 1) br ct := by
  have h2 : ¬ (c.blur_threshold + 1 < c.blur_threshold) := by linarith
  constructor
  · unfold ImageQualityChecker.is_verifiable
    split_ifs <;> simp_all
  · unfold ImageQualityChecker.is_verifiable
    split_ifs <;> simp_all

/-- Witness for C8 at the default thresholds: a blur score of exactly 100
is not reported as low_resolution and behaves like a passing score. -/
theorem blur_threshold_boundary_witness :
    (default_checker.is_verifiable 0 default_checker.blur_threshold 100 50).2
      ≠ "low_resolution"
  ∧ default_checker.is_verifiable 0 default_checker.blur_threshold 100 50
      = default_checker.is_verifiable 0 (default_checker.blur_threshold + 1) 100 50 :=
  blur_threshold_boundary default_checker 0 100 50

/-- C3: buffer-zone classification is by strict priority.  If any panel
intersects the buffer-1 circle, the zone is 1 and the candidate set
passed to merging is the full buffer-1 set; buffer 2 decides only when
buffer 1 is missed, over the same original panel set; if neither buffer
is hit the zone is 0 with no candidates.  In particular a panel
intersecting both buffers is classified only under zone 1. -/
theorem zone_priority {P : Type} [DecidableEq P] (g : GeoModel P)
    (panels : List P) (s cc bs br ct : ℚ) :
    (panels.filter g.intersectsB1 ≠ [] →
        (analyze_buffers g panels s cc bs br ct).zone_id = 1
      ∧ (analyze_buffers g panels s cc bs br ct).merged_panels
          = some (panels.filter g.intersectsB1))
  ∧ (panels.filter g.intersectsB1 = [] → panels.filter g.intersectsB2 ≠ [] →
        (analyze_buffers g panels s cc bs br ct).zone_id = 2
      ∧ (analyze_buffers g panels s cc bs br ct).merged_panels
          = some (panels.filter g.intersectsB2))
  ∧ (panels.filter g.intersectsB1 = [] → panels.filter g.intersectsB2 = [] →
        (analyze_buffers g panels s cc bs br ct).zone_id = 0
      ∧ (analyze_buffers g panels s cc bs br ct).merged_panels = none) := by
  refine ⟨fun h1 => ?_, fun h1 h2 => ?_, fun h1 h2 => ?_⟩ <;>
    simp_all [analyze_buffers, merge_panels, List.isEmpty_iff]

/-- Witness for C3: in a model where both concrete rectangles intersect
both buffers, the classification is zone 1 with the full buffer-1 set. -/
theorem zone_priority_witness :
    (analyze_buffers rectModel [rectA, rectB] (3/20) 0 100 100 50).zone_id = 1
  ∧ (analyze_buffers rectModel [rectA, rectB] (3/20) 0 100 100 50).merged_panels
      = some ([rectA, rectB].filter rectModel.intersectsB1) :=
  (zone_priority rectModel [rectA, rectB] (3/20) 0 100 100 50).1 (by decide)

/-- Every candidate panel came from the original list, so the source's
value-equality membership guard in the index-recovery loop keeps every
candidate: filtering the candidates by membership in the original list is
the identity (stated in the fused form produced by List.filter_filter). -/
lemma filter_contains_of_filter {P : Type} [DecidableEq P] (panels : List P)
    (q : P → Bool) :
    panels.filter (fun a => decide (a ∈ panels) && q a) = panels.filter q := by
  apply List.filter_congr
  intro a ha
  simp [ha]

/-- C6: every record returned by the pipeline satisfies the invariants:
zone 0 implies zero panel count and zero total areas; zone 1 or 2 implies
the panel count equals the number of reported panel indices and is at
least one. -/
theorem record_invariants {P : Type} [DecidableEq P] (g : GeoModel P)
    (panels : List P) (s cc bs br ct : ℚ) :
    ((analyze_buffers g panels s cc bs br ct).zone_id = 0 →
        (analyze_buffers g panels s cc bs br ct).panel_count = 0
      ∧ (analyze_buffers g panels s cc bs br ct).total_area_sqft = 0
      ∧ (analyze_buffers g panels s cc bs br ct).total_area_sqm = 0)
  ∧ ((analyze_buffers g panels s cc bs br ct).zone_id = 1
      ∨ (analyze_buffers g panels s cc bs br ct).zone_id = 2 →
        (analyze_buffers g panels s cc bs br ct).panel_count
          = (analyze_buffers g panels s cc bs br ct).valid_panel_indices.length
      ∧ 1 ≤ (analyze_buffers g panels s cc bs br ct).panel_count) := by
  by_cases hb1 : panels.filter g.intersectsB1 = []
  · by_cases hb2 : panels.filter g.intersectsB2 = []
    · simp [analyze_buffers, merge_panels, hb1, hb2]
    · constructor
      · intro h0
        simp [analyze_buffers, merge_panels, hb1, List.isEmpty_iff, hb2] at h0
      · intro _
        constructor
        · simp [analyze_buffers, hb1, List.isEmpty_iff, hb2,
            filter_contains_of_filter]
        · simp [analyze_buffers, hb1, List.isEmpty_iff, hb2,
            Nat.one_le_iff_ne_zero]
  · constructor
    · intro h0
      simp [analyze_buffers, merge_panels, List.isEmpty_iff, hb1] at h0
    · intro _
      constructor
      · simp [analyze_buffers, hb1, List.isEmpty_iff,
          filter_contains_of_filter]
      · simp [analyze_buffers, hb1, List.isEmpty_iff,
          Nat.one_le_iff_ne_zero]

/-- Witness for C6 in the zone-1 arm: with two concrete rectangles inside
buffer 1 the panel count equals the number of reported indices and is at
least one. -/
theorem record_invariants_witness :
    (analyze_buffers rectModel [rectA, rectB] (3/20) 0 100 100 50).panel_count
      = (analyze_buffers rectModel [rectA, rectB]
          (3/20) 0 100 100 50).valid_panel_indices.length
  ∧ 1 ≤ (analyze_buffers rectModel [rectA, rectB] (3/20) 0 100 100 50).panel_count :=
  (record_invariants rectModel [rectA, rectB] (3/20) 0 100 100 50).2
    (Or.inl (by decide))

/-- Counterexample to C2: the metrics cloudCoverage=0, blurScore=100,
brightness=100, contrast=25 pass every QualityGate threshold of the
checker (contrast 25 is at least 20), the candidate panel set is
non-empty, yet the assembled record's qcStatus is
NOT_VERIFIABLE (contrast), because determine_qc_status re-checks the
metrics against its own, different thresholds (contrast below 30 fails). -/
theorem gate_pass_but_record_not_verifiable :
    (default_checker.is_verifiable 0 100 100 25).1 = true
  ∧ (analyze_buffers rectModel [rectA, rectB] (3/20) 0 100 100 25).panel_count = 2
  ∧ (analyze_buffers rectModel [rectA, rectB] (3/20) 0 100 100 25).qc_status
      = "NOT_VERIFIABLE (contrast)" := by
  refine ⟨?_, by decide, ?_⟩
  · norm_num [ImageQualityChecker.is_verifiable, default_checker]
  · norm_num [analyze_buffers, merge_panels, determine_qc_status, rectModel,
      rectUnionArea, rectArea, rectInterArea, rectA, rectB]

/-- C2 as amended: for every input whose metrics pass the thresholds that
determine_qc_status actually applies (cloudCoverage at most 0.3,
blurScore at least 50, brightness between 20 and 250, contrast at least
30), the assembled record's qcStatus is VERIFIABLE (present) when the
candidate panel set is non-empty and VERIFIABLE (not present) when it is
empty; a NOT_VERIFIABLE status is never produced for such an input. -/
theorem record_verifiable_under_qc_thresholds {P : Type} [DecidableEq P]
    (g : GeoModel P) (panels : List P) (s cc bs br ct : ℚ)
    (h1 : cc ≤ 3/10) (h2 : 50 ≤ bs) (h3 : 20 ≤ br) (h4 : br ≤ 250)
    (h5 : 30 ≤ ct) :
    (analyze_buffers g panels s cc bs br ct).qc_status
      = if panels.filter g.intersectsB1 ≠ [] ∨ panels.filter g.intersectsB2 ≠ []
        then "VERIFIABLE (present)" else "VERIFIABLE (not present)" := by
  have hnc : ¬ (cc > 3/10) := not_lt.mpr h1
  have hnb : ¬ (bs < 50) := not_lt.mpr h2
  have hnbr : ¬ (br < 20 ∨ br > 250) := by
    push_neg
    exact ⟨by linarith, h4⟩
  have hnct : ¬ (ct < 30) := not_lt.mpr h5
  by_cases hb1 : panels.filter g.intersectsB1 = []
  · by_cases hb2 : panels.filter g.intersectsB2 = []
    · simp [analyze_buffers, determine_qc_status, hb1, hb2, hnc, hnb, hnbr, hnct]
    · simp [analyze_buffers, determine_qc_status, List.isEmpty_iff, hb1, hb2,
        hnc, hnb, hnbr, hnct]
  · simp [analyze_buffers, determine_qc_status, List.isEmpty_iff, hb1,
      hnc, hnb, hnbr, hnct]

/-- Witness for the amended C2 with healthy metrics and a non-empty
candidate set: the record's status is VERIFIABLE (present). -/
theorem record_verifiable_under_qc_thresholds_witness :
    (analyze_buffers rectModel [rectA, rectB] (3/20) (1/10) 60 100 40).qc_status
      = if [rectA, rectB].filter rectModel.intersectsB1 ≠ []
           ∨ [rectA, rectB].filter rectModel.intersectsB2 ≠ []
        then "VERIFIABLE (present)" else "VERIFIABLE (not present)" :=
  record_verifiable_under_qc_thresholds rectModel [rectA, rectB] (3/20)
    (1/10) 60 100 40 (by norm_num) (by norm_num) (by norm_num)
    (by norm_num) (by norm_num)

/-- C4 is a defect in the code: the record's square-feet figure is indeed
the union pixel area times scale squared times 10.7639, but the record's
square-meters figure is re-derived from that square-feet figure by
multiplying by 0.092903 (geometry.py line 149), so it differs from the
directly computed square-meters value by the factor 0.9999986017.
Evaluated at a concrete 2x1-pixel panel at scale 0.15. -/
theorem total_area_sqm_rederived_from_sqft :
    (analyze_buffers rectModel [rectA] (3/20) 0 100 100 50).total_area_sqft
      = (rectModel.unionArea [rectA] * (3/20) ^ 2) * (107639/10000)
  ∧ (analyze_buffers rectModel [rectA] (3/20) 0 100 100 50).total_area_sqm
      = (analyze_buffers rectModel [rectA] (3/20) 0 100 100 50).total_area_sqft
          * (92903/1000000)
  ∧ (analyze_buffers rectModel [rectA] (3/20) 0 100 100 50).total_area_sqm
      ≠ rectModel.unionArea [rectA] * (3/20) ^ 2 := by
  refine ⟨?_, ?_, ?_⟩ <;>
    norm_num [analyze_buffers, merge_panels, rectModel, rectUnionArea,
      rectArea, rectInterArea, rectA]

/-- C5: when two candidate panels both fall in zone 1 and they overlap
(so the pixel area of their union is strictly below the sum of their
individual pixel areas), the reported total area is computed from the
union area, and is strictly below the figure the sum of the individual
areas would give: overlapping detections are not double-counted. -/
theorem union_area_not_sum {P : Type} [DecidableEq P] (g : GeoModel P)
    (p1 p2 : P) (s cc bs br ct : ℚ)
    (h1 : g.intersectsB1 p1 = true) (h2 : g.intersectsB1 p2 = true)
    (hover : g.unionArea [p1, p2] < g.panelArea p1 + g.panelArea p2)
    (hs : 0 < s) :
    (analyze_buffers g [p1, p2] s cc bs br ct).zone_id = 1
  ∧ (analyze_buffers g [p1, p2] s cc bs br ct).total_area_sqft
      = (g.unionArea [p1, p2] * s ^ 2) * (107639/10000)
  ∧ (analyze_buffers g [p1, p2] s cc bs br ct).total_area_sqft
      < ((g.panelArea p1 + g.panelArea p2) * s ^ 2) * (107639/10000) := by
  have hfil : [p1, p2].filter g.intersectsB1 = [p1, p2] := by simp [h1, h2]
  have hlt : (g.unionArea [p1, p2] * s ^ 2) * (107639/10000)
      < ((g.panelArea p1 + g.panelArea p2) * s ^ 2) * (107639/10000) := by
    have hs2 : (0:ℚ) < s ^ 2 := by positivity
    have := mul_lt_mul_of_pos_right hover hs2
    exact mul_lt_mul_of_pos_right this (by norm_num)
  refine ⟨?_, ?_, ?_⟩ <;>
    simp [analyze_buffers, merge_panels, hfil, hlt]

/-- Witness for C5: the two concrete 2x1 rectangles overlap on a unit
square, so the union area 3 is below the area sum 4, and the reported
total is the union-based figure. -/
theorem union_area_not_sum_witness :
    (analyze_buffers rectModel [rectA, rectB] (3/20) 5 80 90 45).zone_id = 1
  ∧ (analyze_buffers rectModel [rectA, rectB] (3/20) 5 80 90 45).total_area_sqft
      = (rectModel.unionArea [rectA, rectB] * (3/20) ^ 2) * (107639/10000)
  ∧ (analyze_buffers rectModel [rectA, rectB] (3/20) 5 80 90 45).total_area_sqft
      < ((rectModel.panelArea rectA + rectModel.panelArea rectB) * (3/20) ^ 2)
          * (107639/10000) :=
  union_area_not_sum rectModel rectA rectB (3/20) 5 80 90 45 rfl rfl
    (by norm_num [rectModel, rectUnionArea, rectArea, rectInterArea,
      rectA, rectB]) (by norm_num)

/-- C9: converting square meters to square feet with the source's 10.7639
factor and back with the source's 0.092903 factor returns to within 0.01
percent of the original positive value, and the two constants are mutual
reciprocals to within that tolerance. -/
theorem area_conversion_round_trip (x : ℚ) (hx : 0 < x) :
    |sqft_to_sqmeters (sqm_to_sqft x) - x| ≤ x * (1/10000)
  ∧ |(107639/10000 : ℚ) * (92903/1000000) - 1| ≤ 1/10000 := by
  unfold sqft_to_sqmeters sqm_to_sqft
  constructor
  · rw [abs_le]
    constructor <;> nlinarith
  · rw [abs_le]
    constructor <;> norm_num

/-- Witness for C9 at one square meter. -/
theorem area_conversion_round_trip_witness :
    |sqft_to_sqmeters (sqm_to_sqft 1) - 1| ≤ 1 * (1/10000)
  ∧ |(107639/10000 : ℚ) * (92903/1000000) - 1| ≤ 1/10000 :=
  area_conversion_round_trip 1 (by norm_num)

/-- C7: for every positive scale, the pixel radius derived for the 1200
sqft buffer is strictly smaller than the pixel radius derived for the
2400 sqft buffer. -/
theorem buffer_radius_strict_mono (scale_mpp : ℝ) (h : 0 < scale_mpp) :
    (get_buffer_radii scale_mpp).buffer_1_px
      < (get_buffer_radii scale_mpp).buffer_2_px := by
  have hpi : (0:ℝ) < Real.pi := Real.pi_pos
  have hq1 : (0:ℚ) < sqft_to_sqmeters BUFFER_1_SQFT := by
    norm_num [sqft_to_sqmeters, BUFFER_1_SQFT]
  have hq12 : sqft_to_sqmeters BUFFER_1_SQFT < sqft_to_sqmeters BUFFER_2_SQFT := by
    norm_num [sqft_to_sqmeters, BUFFER_1_SQFT, BUFFER_2_SQFT]
  have hr1 : (0:ℝ) < ((sqft_to_sqmeters BUFFER_1_SQFT : ℚ) : ℝ) := by
    exact_mod_cast hq1
  have hr12 : ((sqft_to_sqmeters BUFFER_1_SQFT : ℚ) : ℝ)
      < ((sqft_to_sqmeters BUFFER_2_SQFT : ℚ) : ℝ) := by exact_mod_cast hq12
  have harg : ((sqft_to_sqmeters BUFFER_1_SQFT : ℚ) : ℝ) / Real.pi
      < ((sqft_to_sqmeters BUFFER_2_SQFT : ℚ) : ℝ) / Real.pi :=
    (div_lt_div_iff_of_pos_right hpi).mpr hr12
  have hsq : Real.sqrt (((sqft_to_sqmeters BUFFER_1_SQFT : ℚ) : ℝ) / Real.pi)
      < Real.sqrt (((sqft_to_sqmeters BUFFER_2_SQFT : ℚ) : ℝ) / Real.pi) :=
    Real.sqrt_lt_sqrt (le_of_lt (div_pos hr1 hpi)) harg
  unfold get_buffer_radii area_to_radius_meters
  exact (div_lt_div_iff_of_pos_right h).mpr hsq

/-- Witness for C7 at the deployed scale of 0.15 meters per pixel. -/
theorem buffer_radius_strict_mono_witness :
    (get_buffer_radii (3/20)).buffer_1_px < (get_buffer_radii (3/20)).buffer_2_px :=
  buffer_radius_strict_mono (3/20) (by norm_num)

/-- C10: the quality-metric arguments influence only the qc_status field
of the analyze_buffers record: for a fixed geometry model, panel set and
scale, every other field is identical across any two choices of the
metrics.  Consequently a record can carry a NOT_VERIFIABLE qc_status
together with a positive zone, panel count and total areas, exhibited
here at cloudCoverage=0.5 over two panels in buffer 1. -/
theorem metrics_only_affect_qc_status :
    (∀ (P : Type) [DecidableEq P] (g : GeoModel P) (panels : List P)
        (s cc bs br ct cc2 bs2 br2 ct2 : ℚ),
        (analyze_buffers g panels s cc bs br ct).status
          = (analyze_buffers g panels s cc2 bs2 br2 ct2).status
      ∧ (analyze_buffers g panels s cc bs br ct).zone_id
          = (analyze_buffers g panels s cc2 bs2 br2 ct2).zone_id
      ∧ (analyze_buffers g panels s cc bs br ct).total_area_sqft
          = (analyze_buffers g panels s cc2 bs2 br2 ct2).total_area_sqft
      ∧ (analyze_buffers g panels s cc bs br ct).total_area_sqm
          = (analyze_buffers g panels s cc2 bs2 br2 ct2).total_area_sqm
      ∧ (analyze_buffers g panels s cc bs br ct).panel_count
          = (analyze_buffers g panels s cc2 bs2 br2 ct2).panel_count
      ∧ (analyze_buffers g panels s cc bs br ct).avg_panel_area_sqm
          = (analyze_buffers g panels s cc2 bs2 br2 ct2).avg_panel_area_sqm
      ∧ (analyze_buffers g panels s cc bs br ct).max_panel_area_sqm
          = (analyze_buffers g panels s cc2 bs2 br2 ct2).max_panel_area_sqm
      ∧ (analyze_buffers g panels s cc bs br ct).min_panel_area_sqm
          = (analyze_buffers g panels s cc2 bs2 br2 ct2).min_panel_area_sqm
      ∧ (analyze_buffers g panels s cc bs br ct).valid_panel_indices
          = (analyze_buffers g panels s cc2 bs2 br2 ct2).valid_panel_indices
      ∧ (analyze_buffers g panels s cc bs br ct).valid_panel_areas_sqm
          = (analyze_buffers g panels s cc2 bs2 br2 ct2).valid_panel_areas_sqm
      ∧ (analyze_buffers g panels s cc bs br ct).polygon_masks
          = (analyze_buffers g panels s cc2 bs2 br2 ct2).polygon_masks
      ∧ (analyze_buffers g panels s cc bs br ct).merged_panels
          = (analyze_buffers g panels s cc2 bs2 br2 ct2).merged_panels)
  ∧ ((analyze_buffers rectModel [rectA, rectB] (3/20) (1/2) 100 100 50).qc_status
        = "NOT_VERIFIABLE (cloud_coverage)"
      ∧ (analyze_buffers rectModel [rectA, rectB] (3/20) (1/2) 100 100 50).zone_id = 1
      ∧ (analyze_buffers rectModel [rectA, rectB] (3/20) (1/2) 100 100 50).panel_count = 2
      ∧ 0 < (analyze_buffers rectModel [rectA, rectB]
              (3/20) (1/2) 100 100 50).total_area_sqft
      ∧ 0 < (analyze_buffers rectModel [rectA, rectB]
              (3/20) (1/2) 100 100 50).total_area_sqm) := by
  constructor
  · intro P _ g panels s cc bs br ct cc2 bs2 br2 ct2
    exact ⟨rfl, rfl, rfl, rfl, rfl, rfl, rfl, rfl, rfl, rfl, rfl, rfl⟩
  · refine ⟨?_, by decide, by decide, ?_, ?_⟩ <;>
      norm_num [analyze_buffers, merge_panels, determine_qc_status, rectModel,
        rectUnionArea, rectArea, rectInterArea, rectA, rectB]
